import Mathlib

/-!
Verification of the session/cache/state-translation layer of the
python-panasonic-comfort-cloud client, as a shallow embedding of
pcomfortcloud/session.py (classes Cache and Session).  The enumeration
module pcomfortcloud/constants.py is not part of the sources at hand, so
its enumerations are modelled from the specification document under the
namespace Constants; all other definitions are translated directly from
session.py.
-/

namespace PCC

namespace Constants

/-- Modelled from the spec: constants.Power, the closed power enumeration.
The wire codes are representative distinct integers. -/
inductive Power
  | Off
  | On
  deriving DecidableEq, Repr

/-- Wire code of a Power member. -/
def Power.value : Power → Int
  | .Off => 0
  | .On => 1

/-- Wire-code lookup for Power; yields none when the integer is not a
member of the closed enumeration. -/
def Power.ofValue : Int → Option Power
  | 0 => some .Off
  | 1 => some .On
  | _ => none

/-- Modelled from the spec: constants.OperationMode, the closed operation
mode enumeration.  The claims depend only on closedness and on the wire
codes being distinct, so representative members and codes are used. -/
inductive OperationMode
  | Auto
  | Dry
  | Cool
  | Heat
  | Fan
  deriving DecidableEq, Repr

/-- Wire code of an OperationMode member. -/
def OperationMode.value : OperationMode → Int
  | .Auto => 0
  | .Dry => 1
  | .Cool => 2
  | .Heat => 3
  | .Fan => 4

/-- Wire-code lookup for OperationMode. -/
def OperationMode.ofValue : Int → Option OperationMode
  | 0 => some .Auto
  | 1 => some .Dry
  | 2 => some .Cool
  | 3 => some .Heat
  | 4 => some .Fan
  | _ => none

/-- Modelled from the spec: constants.FanSpeed, the closed fan speed
enumeration. -/
inductive FanSpeed
  | Auto
  | Low
  | Mid
  | High
  deriving DecidableEq, Repr

/-- Wire code of a FanSpeed member. -/
def FanSpeed.value : FanSpeed → Int
  | .Auto => 0
  | .Low => 1
  | .Mid => 2
  | .High => 3

/-- Wire-code lookup for FanSpeed. -/
def FanSpeed.ofValue : Int → Option FanSpeed
  | 0 => some .Auto
  | 1 => some .Low
  | 2 => some .Mid
  | 3 => some .High
  | _ => none

/-- Modelled from the spec: constants.EcoMode, the closed eco mode
enumeration. -/
inductive EcoMode
  | Auto
  | Powerful
  | Quiet
  deriving DecidableEq, Repr

/-- Wire code of an EcoMode member. -/
def EcoMode.value : EcoMode → Int
  | .Auto => 0
  | .Powerful => 1
  | .Quiet => 2

/-- Wire-code lookup for EcoMode. -/
def EcoMode.ofValue : Int → Option EcoMode
  | 0 => some .Auto
  | 1 => some .Powerful
  | 2 => some .Quiet
  | _ => none

/-- Modelled from the spec: constants.NanoeMode, the nanoe feature
enumeration with its enabled, disabled and unavailable states; the
Unavailable member is referenced by session.py. -/
inductive NanoeMode
  | Unavailable
  | Off
  | On
  deriving DecidableEq, Repr

/-- Wire code of a NanoeMode member. -/
def NanoeMode.value : NanoeMode → Int
  | .Unavailable => 0
  | .Off => 1
  | .On => 2

/-- Wire-code lookup for NanoeMode. -/
def NanoeMode.ofValue : Int → Option NanoeMode
  | 0 => some .Unavailable
  | 1 => some .Off
  | 2 => some .On
  | _ => none

/-- Modelled from the spec: constants.AirSwingLR, the horizontal swing
enumeration.  The Auto member carries wire code -1, as required by the
value == -1 checks in session.py; discrete members carry distinct
non-negative codes. -/
inductive AirSwingLR
  | Auto
  | Left
  | Mid
  | Right
  deriving DecidableEq, Repr

/-- Wire code of an AirSwingLR member. -/
def AirSwingLR.value : AirSwingLR → Int
  | .Auto => -1
  | .Left => 1
  | .Mid => 2
  | .Right => 0

/-- Wire-code lookup for AirSwingLR. -/
def AirSwingLR.ofValue : Int → Option AirSwingLR
  | -1 => some .Auto
  | 1 => some .Left
  | 2 => some .Mid
  | 0 => some .Right
  | _ => none

/-- Modelled from the spec: constants.AirSwingUD, the vertical swing
enumeration.  The Auto member carries wire code -1, as required by the
value == -1 checks in session.py.  The member names include Up, Left and
Right because the concrete auto-swing cases of the specification use those
names for vertical positions; the codes are representative distinct
non-negative integers. -/
inductive AirSwingUD
  | Auto
  | Up
  | Down
  | Left
  | Right
  deriving DecidableEq, Repr

/-- Wire code of an AirSwingUD member. -/
def AirSwingUD.value : AirSwingUD → Int
  | .Auto => -1
  | .Up => 0
  | .Down => 1
  | .Left => 2
  | .Right => 3

/-- Wire-code lookup for AirSwingUD. -/
def AirSwingUD.ofValue : Int → Option AirSwingUD
  | -1 => some .Auto
  | 0 => some .Up
  | 1 => some .Down
  | 2 => some .Left
  | 3 => some .Right
  | _ => none

/-- Modelled from the spec: constants.AirSwingAutoMode, the 4-valued
combined auto-mode enumeration (disabled, horizontal only, vertical only,
both); session.py references the members Disabled, Both, AirSwingLR and
AirSwingUD.  The wire codes are representative distinct integers. -/
inductive AirSwingAutoMode
  | Disabled
  | Both
  | AirSwingLR
  | AirSwingUD
  deriving DecidableEq, Repr

/-- Wire code of an AirSwingAutoMode member. -/
def AirSwingAutoMode.value : AirSwingAutoMode → Int
  | .Disabled => 1
  | .Both => 0
  | .AirSwingLR => 2
  | .AirSwingUD => 3

/-- Modelled from the spec: constants.dataMode, the closed history-mode
enumeration with members Day, Week, Month and Year. -/
inductive dataMode
  | Day
  | Week
  | Month
  | Year
  deriving DecidableEq, Repr

/-- Wire code of a dataMode member. -/
def dataMode.value : dataMode → Int
  | .Day => 0
  | .Week => 1
  | .Month => 2
  | .Year => 4

/-- Name lookup for dataMode, modelling the Python subscript
constants.dataMode[mode] which raises KeyError for unknown names. -/
def dataMode.ofName : String → Option dataMode
  | "Day" => some .Day
  | "Week" => some .Week
  | "Month" => some .Month
  | "Year" => some .Year
  | _ => none

/-- Modelled from the spec: constants.Cache, the caching-scope
enumeration (none, token-only, all); session.py references the members
Token and All. -/
inductive Cache
  | No
  | Token
  | All
  deriving DecidableEq, Repr

end Constants

/-- Python bitwise complement on unbounded integers: ~a = -a - 1. -/
def pyNot (a : Int) : Int := -a - 1

/-- Python bitwise conjunction on unbounded integers, in twos-complement
reading of negative numbers.  On naturals m and n, the set difference of
the bits of m and n equals m - (m and n). -/
def pyAnd (a b : Int) : Int :=
  match a, b with
  | .ofNat m, .ofNat n => .ofNat (m &&& n)
  | .ofNat m, .negSucc n => .ofNat (m - (m &&& n))
  | .negSucc m, .ofNat n => .ofNat (n - (n &&& m))
  | .negSucc m, .negSucc n => .negSucc (m ||| n)

/-- Python bitwise disjunction on unbounded integers, in twos-complement
reading of negative numbers. -/
def pyOr (a b : Int) : Int :=
  match a, b with
  | .ofNat m, .ofNat n => .ofNat (m ||| n)
  | .ofNat m, .negSucc n => .negSucc (n - (n &&& m))
  | .negSucc m, .ofNat n => .negSucc (m - (m &&& n))
  | .negSucc m, .negSucc n => .negSucc (m &&& n)

/-- Leaf value of a parsed wire JSON object: an integer code or any other
JSON value kept abstract as its text. -/
inductive WireVal
  | int (n : Int)
  | str (s : String)
  deriving DecidableEq, Repr

/-- Parsed wire JSON object, as an association list over its keys. -/
def WireDict := List (String × WireVal)

instance : DecidableEq WireDict := by
  unfold WireDict
  infer_instance

/-- Key lookup in a parsed wire JSON object. -/
def dictGet (d : WireDict) (key : String) : Option WireVal :=
  (d.find? (fun p => p.1 == key)).map (fun p => p.2)

/-- Structured device state: the value dictionary built by
Session._read_parameters.  Only keys present in the wire response are
populated; absent keys are none. -/
structure DeviceState where
  temperatureInside : Option WireVal := none
  temperatureOutside : Option WireVal := none
  temperature : Option WireVal := none
  currencyUnit : Option WireVal := none
  energyConsumption : Option WireVal := none
  estimatedCost : Option WireVal := none
  historyDataList : Option WireVal := none
  power : Option Constants.Power := none
  mode : Option Constants.OperationMode := none
  fanSpeed : Option Constants.FanSpeed := none
  airSwingHorizontal : Option Constants.AirSwingLR := none
  airSwingVertical : Option Constants.AirSwingUD := none
  eco : Option Constants.EcoMode := none
  nanoe : Option Constants.NanoeMode := none
  deriving DecidableEq, Repr

/-- Decode failure: a wire value outside its closed enumeration, as
raised by the Python enumeration constructor call in
Session._read_parameters. -/
structure DecodeError where
  key : String
  wire : WireVal
  deriving DecidableEq, Repr

/-- Enumeration lookup on a wire value; a non-integer wire value is never
a member. -/
def enumOfWire {α : Type} (of : Int → Option α) : WireVal → Option α
  | .int n => of n
  | .str _ => none

/-- One simple-field step of Session._read_parameters: copy the raw wire
value when the key is present. -/
def readRaw (parameters : WireDict) (key : String)
    (upd : DeviceState → WireVal → DeviceState) (value : DeviceState) : DeviceState :=
  match dictGet parameters key with
  | some v => upd value v
  | none => value

/-- One enumerated-field step of Session._read_parameters: when the key
is present, decode it through the enumeration, failing on a value outside
the enumeration. -/
def readEnum {α : Type} (parameters : WireDict) (key : String) (of : Int → Option α)
    (upd : DeviceState → α → DeviceState) (value : DeviceState) :
    Except DecodeError DeviceState :=
  match dictGet parameters key with
  | some v =>
    match enumOfWire of v with
    | some a => .ok (upd value a)
    | none => .error { key := key, wire := v }
  | none => .ok value

/-- Final step of Session._read_parameters: the combined fanAutoMode wire
field overrides the swing fields, setting the Auto variant of one or both
axes. -/
def applyFanAutoMode (parameters : WireDict) (value : DeviceState) : DeviceState :=
  match dictGet parameters "fanAutoMode" with
  | some v =>
    if v = .int Constants.AirSwingAutoMode.Both.value then
      { value with airSwingHorizontal := some .Auto, airSwingVertical := some .Auto }
    else if v = .int Constants.AirSwingAutoMode.AirSwingLR.value then
      { value with airSwingHorizontal := some .Auto }
    else if v = .int Constants.AirSwingAutoMode.AirSwingUD.value then
      { value with airSwingVertical := some .Auto }
    else value
  | none => value

/-- Session._read_parameters: translate a parsed wire parameter object to
the structured device state, failing with a DecodeError when an
enumerated field carries a value outside its enumeration. -/
def _read_parameters (parameters : WireDict) : Except DecodeError DeviceState :=
  let value : DeviceState := {}
  let value := readRaw parameters "insideTemperature"
    (fun s v => { s with temperatureInside := some v }) value
  let value := readRaw parameters "outTemperature"
    (fun s v => { s with temperatureOutside := some v }) value
  let value := readRaw parameters "temperatureSet"
    (fun s v => { s with temperature := some v }) value
  let value := readRaw parameters "currencyUnit"
    (fun s v => { s with currencyUnit := some v }) value
  let value := readRaw parameters "energyConsumption"
    (fun s v => { s with energyConsumption := some v }) value
  let value := readRaw parameters "estimatedCost"
    (fun s v => { s with estimatedCost := some v }) value
  let value := readRaw parameters "historyDataList"
    (fun s v => { s with historyDataList := some v }) value
  match readEnum parameters "operate" Constants.Power.ofValue
    (fun s a => { s with power := some a }) value with
  | .error e => .error e
  | .ok value =>
  match readEnum parameters "operationMode" Constants.OperationMode.ofValue
    (fun s a => { s with mode := some a }) value with
  | .error e => .error e
  | .ok value =>
  match readEnum parameters "fanSpeed" Constants.FanSpeed.ofValue
    (fun s a => { s with fanSpeed := some a }) value with
  | .error e => .error e
  | .ok value =>
  match readEnum parameters "airSwingLR" Constants.AirSwingLR.ofValue
    (fun s a => { s with airSwingHorizontal := some a }) value with
  | .error e => .error e
  | .ok value =>
  match readEnum parameters "airSwingUD" Constants.AirSwingUD.ofValue
    (fun s a => { s with airSwingVertical := some a }) value with
  | .error e => .error e
  | .ok value =>
  match readEnum parameters "ecoMode" Constants.EcoMode.ofValue
    (fun s a => { s with eco := some a }) value with
  | .error e => .error e
  | .ok value =>
  match readEnum parameters "nanoe" Constants.NanoeMode.ofValue
    (fun s a => { s with nanoe := some a }) value with
  | .error e => .error e
  | .ok value => .ok (applyFanAutoMode parameters value)

/-- Abstract group listing: session.py treats the groups payload as an
unvalidated nested structure, kept here as its raw text. -/
abbrev Groups := String

/-- Serialized form of the cache file: a JSON object whose keys vid and
groups are each either absent (outer none) or present with a possibly
null value (inner Option). -/
structure CacheDict where
  vid : Option (Option String) := none
  groups : Option (Option Groups) := none
  deriving DecidableEq, Repr

/-- Number of keys present in a serialized cache object. -/
def CacheDict.size (d : CacheDict) : Nat :=
  (if d.vid.isSome then 1 else 0) + (if d.groups.isSome then 1 else 0)

/-- Cloud configuration cache: class Cache of session.py. -/
structure Cache where
  _dirty : Bool
  _caching : Constants.Cache
  _groups : Option Groups
  _vid : Option String
  deriving DecidableEq, Repr

/-- Cache.clear: reset token, groups and the dirty flag. -/
def Cache.clear (c : Cache) : Cache :=
  { c with _dirty := false, _groups := none, _vid := none }

/-- Setter of Cache.groups: store the value and mark the cache dirty. -/
def Cache.setGroups (c : Cache) (value : Option Groups) : Cache :=
  { c with _groups := value, _dirty := true }

/-- Setter of Cache.vid: when the value differs from the stored token or
is null, clear the whole cache first, then store the value and mark the
cache dirty. -/
def Cache.setVid (c : Cache) (value : Option String) : Cache :=
  if c._vid ≠ value ∨ value = none then
    let c := c.clear
    { c with _vid := value, _dirty := true }
  else c

/-- Cache.is_dirty. -/
def Cache.is_dirty (c : Cache) : Bool := c._dirty

/-- Cache.is_valid: true iff the token is non-null. -/
def Cache.is_valid (c : Cache) : Bool := c._vid.isSome

/-- Cache.to_file: serialize the subset of the state selected by the
caching scope; the file is written only when that subset is non-empty,
otherwise the previous file content fs is left in place; the dirty flag
is cleared.  Returns the updated cache and the file content. -/
def Cache.to_file (c : Cache) (fs : Option CacheDict) : Cache × Option CacheDict :=
  let dct : CacheDict := {}
  let dct := if c._caching = Constants.Cache.Token ∨ c._caching = Constants.Cache.All then
    { dct with vid := some c._vid } else dct
  let dct := if c._caching = Constants.Cache.All then
    { dct with groups := some c._groups } else dct
  let fs := if 0 < dct.size then some dct else fs
  ({ c with _dirty := false }, fs)

/-- Cache.from_dict: clear, then populate token and groups from the
serialized object according to the caching scope; an absent key reads as
null. -/
def Cache.from_dict (c : Cache) (dct : CacheDict) : Cache :=
  let c := c.clear
  let c := if c._caching = Constants.Cache.Token ∨ c._caching = Constants.Cache.All then
    { c with _vid := dct.vid.getD none } else c
  let c := if c._caching = Constants.Cache.All then
    { c with _groups := dct.groups.getD none } else c
  c

/-- Cache.from_file: clear, then, when the file exists and holds a
well-formed object, populate from it; an absent file leaves the cache
cleared (the malformed-content case behaves the same way and is folded
into none here). -/
def Cache.from_file (c : Cache) (fs : Option CacheDict) : Cache :=
  let c := c.clear
  match fs with
  | some dct => c.from_dict dct
  | none => c

/-- HTTP response as seen by Session._request: status code and raw body
text. -/
structure HttpResponse where
  status_code : Nat
  text : String
  deriving DecidableEq, Repr

/-- Status code requests.codes.unauthorized. -/
def statusUnauthorized : Nat := 401

/-- Status code requests.codes.ok. -/
def statusOk : Nat := 200

/-- Body of a ResponseError: the Python constructor attempts
json.loads on the raw text and falls back to the raw text itself; which
branch applies is a function of the text, abstracted by a parse-success
predicate. -/
inductive BodyVal
  | jsonOf (s : String)
  | rawOf (s : String)
  deriving DecidableEq, Repr

/-- Parse-or-raw body of a ResponseError. -/
def parseBody (jsonParses : String → Bool) (s : String) : BodyVal :=
  if jsonParses s then .jsonOf s else .rawOf s

/-- ResponseError: unexpected response status, carrying the status code
and the parsed-or-raw body. -/
structure ResponseError where
  status_code : Nat
  text : BodyVal
  deriving DecidableEq, Repr

/-- Trace of one Session._request call: its outcome, how many transport
requests it issued, and the useCache arguments of the login calls it
made. -/
structure ReqTrace where
  result : Except ResponseError HttpResponse
  transportCalls : Nat
  reloginCalls : List Bool
  deriving Repr

/-- Session._request: issue the request; on an unauthorized status with
allowReauth, log in again with useCache false and retry once; any final
non-ok status raises ResponseError with the status code and the
parsed-or-raw body.  The transport is a function from the index of the
request (first or retried) to its response. -/
def Session._request (jsonParses : String → Bool) (transport : Nat → HttpResponse)
    (allowReauth : Bool) : ReqTrace :=
  let response := transport 0
  let st : HttpResponse × Nat × List Bool :=
    if response.status_code = statusUnauthorized ∧ allowReauth then
      (transport 1, 2, [false])
    else
      (response, 1, [])
  if st.1.status_code ≠ statusOk then
    { result := .error { status_code := st.1.status_code, text := parseBody jsonParses st.1.text },
      transportCalls := st.2.1, reloginCalls := st.2.2 }
  else
    { result := .ok st.1, transportCalls := st.2.1, reloginCalls := st.2.2 }

/-- Python value handed to set_device as a keyword argument: one of the
recognized enumeration objects, a number, or a string (any other object
behaves like these for the isinstance dispatch and is subsumed by str). -/
inductive PyValue
  | power (v : Constants.Power)
  | mode (v : Constants.OperationMode)
  | fanSpeed (v : Constants.FanSpeed)
  | airSwingLR (v : Constants.AirSwingLR)
  | airSwingUD (v : Constants.AirSwingUD)
  | eco (v : Constants.EcoMode)
  | nanoe (v : Constants.NanoeMode)
  | num (v : Int)
  | str (v : String)
  deriving DecidableEq, Repr

/-- Test for isinstance(value, constants.Power). -/
def PyValue.isPower : PyValue → Bool
  | .power _ => true
  | _ => false

/-- Test for isinstance(value, constants.OperationMode). -/
def PyValue.isMode : PyValue → Bool
  | .mode _ => true
  | _ => false

/-- Test for isinstance(value, constants.FanSpeed). -/
def PyValue.isFanSpeed : PyValue → Bool
  | .fanSpeed _ => true
  | _ => false

/-- Test for isinstance(value, constants.AirSwingLR). -/
def PyValue.isAirSwingLR : PyValue → Bool
  | .airSwingLR _ => true
  | _ => false

/-- Test for isinstance(value, constants.AirSwingUD). -/
def PyValue.isAirSwingUD : PyValue → Bool
  | .airSwingUD _ => true
  | _ => false

/-- Test for isinstance(value, constants.EcoMode). -/
def PyValue.isEco : PyValue → Bool
  | .eco _ => true
  | _ => false

/-- Test for isinstance(value, constants.NanoeMode). -/
def PyValue.isNanoe : PyValue → Bool
  | .nanoe _ => true
  | _ => false

/-- Wire parameter set built by set_device: the parameters dictionary of
the control payload.  Every key the code can write has its own optional
slot; a none slot is an absent key. -/
structure CtrlParams where
  operate : Option Int := none
  temperatureSet : Option PyValue := none
  operationMode : Option Int := none
  fanSpeed : Option Int := none
  airSwingLR : Option Int := none
  airSwingUD : Option Int := none
  ecoMode : Option Int := none
  nanoe : Option Int := none
  fanAutoMode : Option Int := none
  deriving DecidableEq, Repr

/-- One iteration of the keyword-argument loop of set_device: each
recognized key whose value passes the isinstance check contributes its
wire entry; the two swing keys are diverted into airX and airY. -/
def applyKwarg (acc : CtrlParams × Option Constants.AirSwingLR × Option Constants.AirSwingUD)
    (kv : String × PyValue) :
    CtrlParams × Option Constants.AirSwingLR × Option Constants.AirSwingUD :=
  let parameters := acc.1
  let airX := acc.2.1
  let airY := acc.2.2
  let key := kv.1
  let value := kv.2
  let parameters := if key = "power" then
      match value with
      | .power v => { parameters with operate := some v.value }
      | _ => parameters
    else parameters
  let parameters := if key = "temperature" then
      { parameters with temperatureSet := some value }
    else parameters
  let parameters := if key = "mode" then
      match value with
      | .mode v => { parameters with operationMode := some v.value }
      | _ => parameters
    else parameters
  let parameters := if key = "fanSpeed" then
      match value with
      | .fanSpeed v => { parameters with fanSpeed := some v.value }
      | _ => parameters
    else parameters
  let airX := if key = "airSwingHorizontal" then
      match value with
      | .airSwingLR v => some v
      | _ => airX
    else airX
  let airY := if key = "airSwingVertical" then
      match value with
      | .airSwingUD v => some v
      | _ => airY
    else airY
  let parameters := if key = "eco" then
      match value with
      | .eco v => { parameters with ecoMode := some v.value }
      | _ => parameters
    else parameters
  let parameters := if key = "nanoe" then
      match value with
      | .nanoe v =>
        if v ≠ Constants.NanoeMode.Unavailable then
          { parameters with nanoe := some v.value }
        else parameters
      | _ => parameters
    else parameters
  (parameters, airX, airY)

/-- The keyword-argument loop of set_device over the whole change set. -/
def collectKwargs (kwargs : List (String × PyValue)) :
    CtrlParams × Option Constants.AirSwingLR × Option Constants.AirSwingUD :=
  kwargs.foldl applyKwarg ({}, none, none)

/-- Transport request issued by a device operation, after endpoint
resolution. -/
inductive Req
  | status (deviceGuid : String)
  | control (deviceGuid : String) (parameters : CtrlParams)
  | history (deviceGuid : String) (dataMode : Int) (date : String) (tz : String)
  deriving DecidableEq, Repr

/-- Value stored under the id key of a result dictionary: either the
fixed Python builtin named id, or an actual identifier string. -/
inductive ResultId
  | builtinId
  | strId (s : String)
  deriving DecidableEq, Repr

/-- Result dictionary of get_device and history: an id entry and the
decoded parameters. -/
structure DeviceResult where
  id : ResultId
  parameters : DeviceState
  deriving DecidableEq, Repr

/-- Error escaping a device operation: a decode failure, a missing key in
a decoded state dictionary, or the wrong-mode failure of history. -/
inductive SessError
  | decode (e : DecodeError)
  | keyError (key : String)
  | wrongMode
  deriving DecidableEq, Repr

/-- Session state needed by the device operations: the device identifier
index from logical id to wire deviceGuid. -/
structure Session where
  _deviceIndexer : List (String × String)
  deriving DecidableEq, Repr

/-- Lookup in the device identifier index, modelling dict.get. -/
def lookupStr (d : List (String × String)) (key : String) : Option String :=
  (d.find? (fun p => p.1 == key)).map (fun p => p.2)

/-- Python truthiness of an optional string: None and the empty string
are falsy. -/
def pyTruthy (o : Option String) : Bool :=
  match o with
  | some s => s != ""
  | none => false

/-- Session.get_device: resolve the logical id through the index; when
unknown, yield null without any transport request; otherwise fetch the
status and decode its parameters member.  statusOracle gives the parsed
parameters member of the status response for a deviceGuid; the request
log is returned alongside the result. -/
def get_device (sess : Session) (statusOracle : String → WireDict) (id : String) :
    Except SessError (Option DeviceResult) × List Req :=
  let deviceGuid := lookupStr sess._deviceIndexer id
  if pyTruthy deviceGuid then
    let g := deviceGuid.getD ""
    match _read_parameters (statusOracle g) with
    | .ok params => (.ok (some { id := .strId id, parameters := params }), [.status g])
    | .error e => (.error (.decode e), [.status g])
  else
    (.ok none, [])

/-- Session.set_device: build the wire parameter set from the keyword
arguments; when either swing axis is touched, fetch the current device
state and derive the 2-bit fanAuto accumulator and the combined
fanAutoMode field; finally resolve the id and post the control payload,
returning false without posting when the id is unknown. -/
def set_device (sess : Session) (statusOracle : String → WireDict) (id : String)
    (kwargs : List (String × PyValue)) : Except SessError Bool × List Req :=
  let acc := collectKwargs kwargs
  let parameters := acc.1
  let airX := acc.2.1
  let airY := acc.2.2
  let swing : Except SessError CtrlParams × List Req :=
    if airX.isSome || airY.isSome then
      let fanAuto : Int := 0
      match get_device sess statusOracle id with
      | (.error e, log) => (.error e, log)
      | (.ok device, log) =>
        let step1 : Except SessError Int :=
          match device with
          | none => .ok fanAuto
          | some d =>
            match d.parameters.airSwingHorizontal with
            | none => .error (.keyError "airSwingHorizontal")
            | some v => .ok (if v.value = -1 then pyOr fanAuto 1 else fanAuto)
        match step1 with
        | .error e => (.error e, log)
        | .ok fanAuto =>
          let step2 : Except SessError Int :=
            match device with
            | none => .ok fanAuto
            | some d =>
              match d.parameters.airSwingVertical with
              | none => .error (.keyError "airSwingVertical")
              | some v => .ok (if v.value = -1 then pyOr fanAuto 2 else fanAuto)
          match step2 with
          | .error e => (.error e, log)
          | .ok fanAuto =>
            let fp : Int × CtrlParams :=
              match airX with
              | none => (fanAuto, parameters)
              | some x =>
                if x.value = -1 then (pyOr fanAuto 1, parameters)
                else (pyAnd fanAuto (pyNot 1), { parameters with airSwingLR := some x.value })
            let fanAuto := fp.1
            let parameters := fp.2
            let fp2 : Int × CtrlParams :=
              match airY with
              | none => (fanAuto, parameters)
              | some y =>
                if y.value = -1 then (pyOr fanAuto 2, parameters)
                else (pyAnd fanAuto (pyNot 2), { parameters with airSwingUD := some y.value })
            let fanAuto := fp2.1
            let parameters := fp2.2
            let parameters :=
              if fanAuto = 3 then
                { parameters with fanAutoMode := some Constants.AirSwingAutoMode.Both.value }
              else if fanAuto = 1 then
                { parameters with fanAutoMode := some Constants.AirSwingAutoMode.AirSwingLR.value }
              else if fanAuto = 2 then
                { parameters with fanAutoMode := some Constants.AirSwingAutoMode.AirSwingUD.value }
              else
                { parameters with fanAutoMode := some Constants.AirSwingAutoMode.Disabled.value }
            (.ok parameters, log)
    else (.ok parameters, [])
  match swing with
  | (.error e, log) => (.error e, log)
  | (.ok parameters, log) =>
    let deviceGuid := lookupStr sess._deviceIndexer id
    if pyTruthy deviceGuid then
      (.ok true, log ++ [.control (deviceGuid.getD "") parameters])
    else
      (.ok false, log)

/-- Session.dump: resolve the logical id; when unknown, yield null
without any transport request; otherwise fetch and return the raw parsed
status body. -/
def dump (sess : Session) (statusOracle : String → WireDict) (deviceId : String) :
    Option WireDict × List Req :=
  let deviceGuid := lookupStr sess._deviceIndexer deviceId
  if pyTruthy deviceGuid then
    (some (statusOracle (deviceGuid.getD "")), [.status (deviceGuid.getD "")])
  else
    (none, [])

/-- Session.history: resolve the logical id; when unknown, yield null
without any transport request; otherwise validate the mode name against
the dataMode enumeration (failing before any request), post the history
query and decode its body.  The id entry of the result dictionary is the
name id, which in the source resolves to the Python builtin, not to the
deviceId parameter. -/
def history (sess : Session) (historyOracle : Int → String → String → WireDict)
    (deviceId : String) (mode : String) (date : String) (tz : String) :
    Except SessError (Option DeviceResult) × List Req :=
  let deviceGuid := lookupStr sess._deviceIndexer deviceId
  if pyTruthy deviceGuid then
    match Constants.dataMode.ofName mode with
    | none => (.error .wrongMode, [])
    | some dm =>
      let g := deviceGuid.getD ""
      match _read_parameters (historyOracle dm.value date tz) with
      | .error e => (.error (.decode e), [.history g dm.value date tz])
      | .ok params =>
        (.ok (some { id := .builtinId, parameters := params }), [.history g dm.value date tz])
  else
    (.ok none, [])

/-- Serialization of an optional integer wire entry. -/
def optEntryI (key : String) : Option Int → List (String × WireVal)
  | some n => [(key, .int n)]
  | none => []

/-- Serialization of the raw temperature entry. -/
def optEntryP (key : String) : Option PyValue → List (String × WireVal)
  | some (.num n) => [(key, .int n)]
  | some (.str s) => [(key, .str s)]
  | some _ => []
  | none => []

/-- Serialization of a control parameter set back to a wire parameter
object, as the cloud echoes it in a later status response; bridging
definition for the decode-after-encode round trip. -/
def CtrlParams.toWireDict (p : CtrlParams) : WireDict :=
  optEntryI "operate" p.operate ++ optEntryP "temperatureSet" p.temperatureSet ++
  optEntryI "operationMode" p.operationMode ++ optEntryI "fanSpeed" p.fanSpeed ++
  optEntryI "airSwingLR" p.airSwingLR ++ optEntryI "airSwingUD" p.airSwingUD ++
  optEntryI "ecoMode" p.ecoMode ++ optEntryI "nanoe" p.nanoe ++
  optEntryI "fanAutoMode" p.fanAutoMode

/-- A keyword argument which set_device recognizes and acts on: a known
key whose value passes the isinstance check of its branch (temperature
accepts any value). -/
def recognizedKw (kv : String × PyValue) : Bool :=
  (kv.1 == "power" && kv.2.isPower) ||
  (kv.1 == "temperature") ||
  (kv.1 == "mode" && kv.2.isMode) ||
  (kv.1 == "fanSpeed" && kv.2.isFanSpeed) ||
  (kv.1 == "airSwingHorizontal" && kv.2.isAirSwingLR) ||
  (kv.1 == "airSwingVertical" && kv.2.isAirSwingUD) ||
  (kv.1 == "eco" && kv.2.isEco) ||
  (kv.1 == "nanoe" && kv.2.isNanoe)

/-- Telemetry prefix of Session._read_parameters: the seven simple-field
copies, which can never fail. -/
def rpTelemetry (parameters : WireDict) : DeviceState :=
  readRaw parameters "historyDataList" (fun s v => { s with historyDataList := some v })
    (readRaw parameters "estimatedCost" (fun s v => { s with estimatedCost := some v })
      (readRaw parameters "energyConsumption" (fun s v => { s with energyConsumption := some v })
        (readRaw parameters "currencyUnit" (fun s v => { s with currencyUnit := some v })
          (readRaw parameters "temperatureSet" (fun s v => { s with temperature := some v })
            (readRaw parameters "outTemperature"
              (fun s v => { s with temperatureOutside := some v })
              (readRaw parameters "insideTemperature"
                (fun s v => { s with temperatureInside := some v }) {}))))))

/-- Suffix of Session._read_parameters starting at the nanoe step. -/
def rpFromNanoe (parameters : WireDict) (value : DeviceState) : Except DecodeError DeviceState :=
  match readEnum parameters "nanoe" Constants.NanoeMode.ofValue
    (fun s a => { s with nanoe := some a }) value with
  | .error e => .error e
  | .ok value => .ok (applyFanAutoMode parameters value)

/-- Suffix of Session._read_parameters starting at the ecoMode step. -/
def rpFromEco (parameters : WireDict) (value : DeviceState) : Except DecodeError DeviceState :=
  match readEnum parameters "ecoMode" Constants.EcoMode.ofValue
    (fun s a => { s with eco := some a }) value with
  | .error e => .error e
  | .ok value => rpFromNanoe parameters value

/-- Suffix of Session._read_parameters starting at the airSwingUD step. -/
def rpFromUD (parameters : WireDict) (value : DeviceState) : Except DecodeError DeviceState :=
  match readEnum parameters "airSwingUD" Constants.AirSwingUD.ofValue
    (fun s a => { s with airSwingVertical := some a }) value with
  | .error e => .error e
  | .ok value => rpFromEco parameters value

/-- Suffix of Session._read_parameters starting at the airSwingLR step. -/
def rpFromLR (parameters : WireDict) (value : DeviceState) : Except DecodeError DeviceState :=
  match readEnum parameters "airSwingLR" Constants.AirSwingLR.ofValue
    (fun s a => { s with airSwingHorizontal := some a }) value with
  | .error e => .error e
  | .ok value => rpFromUD parameters value

/-- Suffix of Session._read_parameters starting at the fanSpeed step. -/
def rpFromFanSpeed (parameters : WireDict) (value : DeviceState) :
    Except DecodeError DeviceState :=
  match readEnum parameters "fanSpeed" Constants.FanSpeed.ofValue
    (fun s a => { s with fanSpeed := some a }) value with
  | .error e => .error e
  | .ok value => rpFromLR parameters value

/-- Suffix of Session._read_parameters starting at the operationMode
step. -/
def rpFromOperationMode (parameters : WireDict) (value : DeviceState) :
    Except DecodeError DeviceState :=
  match readEnum parameters "operationMode" Constants.OperationMode.ofValue
    (fun s a => { s with mode := some a }) value with
  | .error e => .error e
  | .ok value => rpFromFanSpeed parameters value

/-- Suffix of Session._read_parameters starting at the operate step: the
whole enumerated-field cascade. -/
def rpFromOperate (parameters : WireDict) (value : DeviceState) :
    Except DecodeError DeviceState :=
  match readEnum parameters "operate" Constants.Power.ofValue
    (fun s a => { s with power := some a }) value with
  | .error e => .error e
  | .ok value => rpFromOperationMode parameters value

/-- The seven enumerated wire keys of Session._read_parameters. -/
def enumWireKeys : List String :=
  ["operate", "operationMode", "fanSpeed", "airSwingLR", "airSwingUD", "ecoMode", "nanoe"]

/-- Membership of a wire value in the closed enumeration that decodes
the given enumerated wire key. -/
def enumMemberAt (key : String) (w : WireVal) : Bool :=
  if key = "operate" then (enumOfWire Constants.Power.ofValue w).isSome
  else if key = "operationMode" then (enumOfWire Constants.OperationMode.ofValue w).isSome
  else if key = "fanSpeed" then (enumOfWire Constants.FanSpeed.ofValue w).isSome
  else if key = "airSwingLR" then (enumOfWire Constants.AirSwingLR.ofValue w).isSome
  else if key = "airSwingUD" then (enumOfWire Constants.AirSwingUD.ofValue w).isSome
  else if key = "ecoMode" then (enumOfWire Constants.EcoMode.ofValue w).isSome
  else (enumOfWire Constants.NanoeMode.ofValue w).isSome

/-- Persist a cache with the given scope to a file holding prior content,
then load a fresh cache with the same scope from that file. -/
def cacheRoundtrip (scope : Constants.Cache) (c : Cache) (prior : Option CacheDict) : Cache :=
  let src : Cache := { c with _caching := scope }
  let fresh : Cache := { _dirty := false, _caching := scope, _groups := none, _vid := none }
  fresh.from_file (src.to_file prior).2

/-- C3: setting the cached token to a value that is null or differs from
the stored token clears the cached group listing (and the rest of the
cache), stores the new value and marks the cache dirty; in particular the
cached groups are always null afterwards. -/
theorem C3_setVid_clears_groups (c : Cache) (value : Option String)
    (h : value = none ∨ value ≠ c._vid) :
    (c.setVid value)._groups = none ∧ (c.setVid value)._vid = value ∧
    (c.setVid value)._dirty = true := by
  have hc : c._vid ≠ value ∨ value = none := by
    rcases h with h | h
    · exact Or.inr h
    · exact Or.inl fun hev => h hev.symm
  unfold Cache.setVid
  rw [if_pos hc]
  exact ⟨rfl, rfl, rfl⟩

/-- Witness for C3 at a concrete cache holding a token and groups, with a
new distinct token value. -/
theorem C3_setVid_clears_groups_witness :
    ((Cache.mk true Constants.Cache.Token (some "groupsblob") (some "oldtoken")).setVid
        (some "newtoken"))._groups = none ∧
    ((Cache.mk true Constants.Cache.Token (some "groupsblob") (some "oldtoken")).setVid
        (some "newtoken"))._vid = some "newtoken" ∧
    ((Cache.mk true Constants.Cache.Token (some "groupsblob") (some "oldtoken")).setVid
        (some "newtoken"))._dirty = true :=
  C3_setVid_clears_groups
    (Cache.mk true Constants.Cache.Token (some "groupsblob") (some "oldtoken"))
    (some "newtoken") (by decide)

/-- C6: for each caching scope, persisting a cache and loading a fresh
cache with the same scope from the resulting file reproduces exactly the
fields included by the scope and leaves excluded fields null, whatever
file content existed before the persist. -/
theorem C6_persist_load_roundtrip (c : Cache) (prior : Option CacheDict) :
    ((cacheRoundtrip Constants.Cache.No c prior)._vid = none ∧
      (cacheRoundtrip Constants.Cache.No c prior)._groups = none) ∧
    ((cacheRoundtrip Constants.Cache.Token c prior)._vid = c._vid ∧
      (cacheRoundtrip Constants.Cache.Token c prior)._groups = none) ∧
    ((cacheRoundtrip Constants.Cache.All c prior)._vid = c._vid ∧
      (cacheRoundtrip Constants.Cache.All c prior)._groups = c._groups) := by
  refine ⟨⟨?_, ?_⟩, ⟨?_, ?_⟩, ⟨?_, ?_⟩⟩ <;>
    cases prior <;>
      simp [cacheRoundtrip, Cache.to_file, Cache.from_file, Cache.from_dict, Cache.clear,
        CacheDict.size]

/-- C4: a Session._request call issues at most two transport requests and
at most one re-login, the re-login carrying useCache false; when the
first response is unauthorized, re-auth is allowed and the retried
request has a non-ok status, the caller receives a ResponseError with the
status code and parsed-or-raw body of the retried response, after exactly two
transport requests and one re-login. -/
theorem C4_request_single_retry (jsonParses : String → Bool)
    (transport : Nat → HttpResponse) (allowReauth : Bool) :
    (Session._request jsonParses transport allowReauth).transportCalls ≤ 2 ∧
    ((Session._request jsonParses transport allowReauth).reloginCalls = [] ∨
      (Session._request jsonParses transport allowReauth).reloginCalls = [false]) ∧
    ((transport 0).status_code = statusUnauthorized → allowReauth = true →
      (transport 1).status_code ≠ statusOk →
      (Session._request jsonParses transport allowReauth).result =
        .error { status_code := (transport 1).status_code,
                 text := parseBody jsonParses (transport 1).text } ∧
      (Session._request jsonParses transport allowReauth).transportCalls = 2 ∧
      (Session._request jsonParses transport allowReauth).reloginCalls = [false]) := by
  simp only [statusOk, statusUnauthorized]
  by_cases hc : (transport 0).status_code = 401 ∧ allowReauth = true
  · obtain ⟨h0, ha⟩ := hc
    by_cases hr : (transport 1).status_code = 200
    · simp [Session._request, h0, ha, hr, statusOk, statusUnauthorized]
    · simp [Session._request, h0, ha, hr, statusOk, statusUnauthorized]
  · refine ⟨?_, ?_, fun h0 ha _ => absurd ⟨h0, ha⟩ hc⟩ <;>
      by_cases hr : (transport 0).status_code = 200 <;>
        simp [Session._request, hc, hr, statusOk, statusUnauthorized]

/-- Witness for C4 at a concrete transport that is always unauthorized:
the retry fails and the caller receives the ResponseError of the second
response. -/
theorem C4_request_single_retry_witness :
    (Session._request (fun _ => false) (fun _ => HttpResponse.mk 401 "expired") true).result =
      .error { status_code := 401, text := BodyVal.rawOf "expired" } ∧
    (Session._request (fun _ => false) (fun _ => HttpResponse.mk 401 "expired") true).transportCalls = 2 ∧
    (Session._request (fun _ => false) (fun _ => HttpResponse.mk 401 "expired") true).reloginCalls = [false] := by
  have h := (C4_request_single_retry (fun _ => false)
    (fun _ => HttpResponse.mk 401 "expired") true).2.2 (by decide) rfl (by decide)
  simpa [parseBody] using h

/-- Resolution of an unknown logical id in get_device: null result and
no transport request. -/
theorem get_device_unknown (sess : Session) (statusOracle : String → WireDict) (id : String)
    (h : lookupStr sess._deviceIndexer id = none) :
    get_device sess statusOracle id = (.ok none, []) := by
  simp [get_device, h, pyTruthy]

/-- C5: for a device id not present in the device identifier index,
get_device, dump and history yield their null lookup-failure result and
set_device returns false, and none of the four operations issues any
transport request — including set_device with an arbitrary change set,
whose preliminary current-state fetch also issues none. -/
theorem C5_unknown_device_no_transport (sess : Session) (statusOracle : String → WireDict)
    (historyOracle : Int → String → String → WireDict) (id mode date tz : String)
    (kwargs : List (String × PyValue))
    (h : lookupStr sess._deviceIndexer id = none) :
    get_device sess statusOracle id = (.ok none, []) ∧
    dump sess statusOracle id = (none, []) ∧
    history sess historyOracle id mode date tz = (.ok none, []) ∧
    set_device sess statusOracle id kwargs = (.ok false, []) := by
  refine ⟨get_device_unknown sess statusOracle id h, ?_, ?_, ?_⟩
  · simp [dump, h, pyTruthy]
  · simp [history, h, pyTruthy]
  · rcases hacc : collectKwargs kwargs with ⟨p, ax, ay⟩
    unfold set_device
    rw [hacc]
    simp only [get_device_unknown sess statusOracle id h, h, pyTruthy]
    cases ax <;> cases ay <;> simp [pyTruthy, h]

/-- Witness for C5 at a concrete session whose index holds one device and
is queried for a different id, with a swing-axis change requested. -/
theorem C5_unknown_device_no_transport_witness :
    get_device ⟨[("known", "guid1")]⟩ (fun _ => []) "other" = (.ok none, []) ∧
    dump ⟨[("known", "guid1")]⟩ (fun _ => []) "other" = (none, []) ∧
    history ⟨[("known", "guid1")]⟩ (fun _ _ _ => []) "other" "Day" "20190807" "+01:00" =
      (.ok none, []) ∧
    set_device ⟨[("known", "guid1")]⟩ (fun _ => []) "other"
      [("airSwingVertical", PyValue.airSwingUD Constants.AirSwingUD.Right)] = (.ok false, []) :=
  C5_unknown_device_no_transport ⟨[("known", "guid1")]⟩ (fun _ => []) (fun _ _ _ => [])
    "other" "Day" "20190807" "+01:00"
    [("airSwingVertical", PyValue.airSwingUD Constants.AirSwingUD.Right)] (by decide)

/-- Decomposition of Session._read_parameters into its telemetry prefix
and the cascade of enumerated-field steps. -/
theorem _read_parameters_decomp (parameters : WireDict) :
    _read_parameters parameters = rpFromOperate parameters (rpTelemetry parameters) := rfl

/-- A present nanoe key with a non-member value makes the nanoe suffix
fail, whatever state reaches it. -/
theorem rpFromNanoe_bad (parameters : WireDict) (w : WireVal)
    (h1 : dictGet parameters "nanoe" = some w)
    (h2 : enumOfWire Constants.NanoeMode.ofValue w = none) :
    ∀ v : DeviceState, ∃ e : DecodeError, rpFromNanoe parameters v = .error e :=
  fun v => ⟨{ key := "nanoe", wire := w }, by simp [rpFromNanoe, readEnum, h1, h2]⟩

/-- A present ecoMode key with a non-member value makes the ecoMode
suffix fail, whatever state reaches it. -/
theorem rpFromEco_bad (parameters : WireDict) (w : WireVal)
    (h1 : dictGet parameters "ecoMode" = some w)
    (h2 : enumOfWire Constants.EcoMode.ofValue w = none) :
    ∀ v : DeviceState, ∃ e : DecodeError, rpFromEco parameters v = .error e :=
  fun v => ⟨{ key := "ecoMode", wire := w }, by simp [rpFromEco, readEnum, h1, h2]⟩

/-- A present airSwingUD key with a non-member value makes the
airSwingUD suffix fail, whatever state reaches it. -/
theorem rpFromUD_bad (parameters : WireDict) (w : WireVal)
    (h1 : dictGet parameters "airSwingUD" = some w)
    (h2 : enumOfWire Constants.AirSwingUD.ofValue w = none) :
    ∀ v : DeviceState, ∃ e : DecodeError, rpFromUD parameters v = .error e :=
  fun v => ⟨{ key := "airSwingUD", wire := w }, by simp [rpFromUD, readEnum, h1, h2]⟩

/-- A present airSwingLR key with a non-member value makes the
airSwingLR suffix fail, whatever state reaches it. -/
theorem rpFromLR_bad (parameters : WireDict) (w : WireVal)
    (h1 : dictGet parameters "airSwingLR" = some w)
    (h2 : enumOfWire Constants.AirSwingLR.ofValue w = none) :
    ∀ v : DeviceState, ∃ e : DecodeError, rpFromLR parameters v = .error e :=
  fun v => ⟨{ key := "airSwingLR", wire := w }, by simp [rpFromLR, readEnum, h1, h2]⟩

/-- A present fanSpeed key with a non-member value makes the fanSpeed
suffix fail, whatever state reaches it. -/
theorem rpFromFanSpeed_bad (parameters : WireDict) (w : WireVal)
    (h1 : dictGet parameters "fanSpeed" = some w)
    (h2 : enumOfWire Constants.FanSpeed.ofValue w = none) :
    ∀ v : DeviceState, ∃ e : DecodeError, rpFromFanSpeed parameters v = .error e :=
  fun v => ⟨{ key := "fanSpeed", wire := w }, by simp [rpFromFanSpeed, readEnum, h1, h2]⟩

/-- A present operationMode key with a non-member value makes the
operationMode suffix fail, whatever state reaches it. -/
theorem rpFromOperationMode_bad (parameters : WireDict) (w : WireVal)
    (h1 : dictGet parameters "operationMode" = some w)
    (h2 : enumOfWire Constants.OperationMode.ofValue w = none) :
    ∀ v : DeviceState, ∃ e : DecodeError, rpFromOperationMode parameters v = .error e :=
  fun v => ⟨{ key := "operationMode", wire := w },
    by simp [rpFromOperationMode, readEnum, h1, h2]⟩

/-- A present operate key with a non-member value makes the whole
enumerated cascade fail, whatever state reaches it. -/
theorem rpFromOperate_bad (parameters : WireDict) (w : WireVal)
    (h1 : dictGet parameters "operate" = some w)
    (h2 : enumOfWire Constants.Power.ofValue w = none) :
    ∀ v : DeviceState, ∃ e : DecodeError, rpFromOperate parameters v = .error e :=
  fun v => ⟨{ key := "operate", wire := w }, by simp [rpFromOperate, readEnum, h1, h2]⟩

/-- Failure of the ecoMode suffix propagates from failure of the nanoe
suffix. -/
theorem rpFromEco_prop (parameters : WireDict)
    (h : ∀ v : DeviceState, ∃ e : DecodeError, rpFromNanoe parameters v = .error e) :
    ∀ v : DeviceState, ∃ e : DecodeError, rpFromEco parameters v = .error e := by
  intro v
  unfold rpFromEco
  rcases hs : readEnum parameters "ecoMode" Constants.EcoMode.ofValue
      (fun s a => { s with eco := some a }) v with e | v2
  · exact ⟨e, rfl⟩
  · obtain ⟨e, he⟩ := h v2
    exact ⟨e, he⟩

/-- Failure of the airSwingUD suffix propagates from failure of the
ecoMode suffix. -/
theorem rpFromUD_prop (parameters : WireDict)
    (h : ∀ v : DeviceState, ∃ e : DecodeError, rpFromEco parameters v = .error e) :
    ∀ v : DeviceState, ∃ e : DecodeError, rpFromUD parameters v = .error e := by
  intro v
  unfold rpFromUD
  rcases hs : readEnum parameters "airSwingUD" Constants.AirSwingUD.ofValue
      (fun s a => { s with airSwingVertical := some a }) v with e | v2
  · exact ⟨e, rfl⟩
  · obtain ⟨e, he⟩ := h v2
    exact ⟨e, he⟩

/-- Failure of the airSwingLR suffix propagates from failure of the
airSwingUD suffix. -/
theorem rpFromLR_prop (parameters : WireDict)
    (h : ∀ v : DeviceState, ∃ e : DecodeError, rpFromUD parameters v = .error e) :
    ∀ v : DeviceState, ∃ e : DecodeError, rpFromLR parameters v = .error e := by
  intro v
  unfold rpFromLR
  rcases hs : readEnum parameters "airSwingLR" Constants.AirSwingLR.ofValue
      (fun s a => { s with airSwingHorizontal := some a }) v with e | v2
  · exact ⟨e, rfl⟩
  · obtain ⟨e, he⟩ := h v2
    exact ⟨e, he⟩

/-- Failure of the fanSpeed suffix propagates from failure of the
airSwingLR suffix. -/
theorem rpFromFanSpeed_prop (parameters : WireDict)
    (h : ∀ v : DeviceState, ∃ e : DecodeError, rpFromLR parameters v = .error e) :
    ∀ v : DeviceState, ∃ e : DecodeError, rpFromFanSpeed parameters v = .error e := by
  intro v
  unfold rpFromFanSpeed
  rcases hs : readEnum parameters "fanSpeed" Constants.FanSpeed.ofValue
      (fun s a => { s with fanSpeed := some a }) v with e | v2
  · exact ⟨e, rfl⟩
  · obtain ⟨e, he⟩ := h v2
    exact ⟨e, he⟩

/-- Failure of the operationMode suffix propagates from failure of the
fanSpeed suffix. -/
theorem rpFromOperationMode_prop (parameters : WireDict)
    (h : ∀ v : DeviceState, ∃ e : DecodeError, rpFromFanSpeed parameters v = .error e) :
    ∀ v : DeviceState, ∃ e : DecodeError, rpFromOperationMode parameters v = .error e := by
  intro v
  unfold rpFromOperationMode
  rcases hs : readEnum parameters "operationMode" Constants.OperationMode.ofValue
      (fun s a => { s with mode := some a }) v with e | v2
  · exact ⟨e, rfl⟩
  · obtain ⟨e, he⟩ := h v2
    exact ⟨e, he⟩

/-- Failure of the whole cascade propagates from failure of the
operationMode suffix. -/
theorem rpFromOperate_prop (parameters : WireDict)
    (h : ∀ v : DeviceState, ∃ e : DecodeError, rpFromOperationMode parameters v = .error e) :
    ∀ v : DeviceState, ∃ e : DecodeError, rpFromOperate parameters v = .error e := by
  intro v
  unfold rpFromOperate
  rcases hs : readEnum parameters "operate" Constants.Power.ofValue
      (fun s a => { s with power := some a }) v with e | v2
  · exact ⟨e, rfl⟩
  · obtain ⟨e, he⟩ := h v2
    exact ⟨e, he⟩

/-- C7: decoding a wire parameter object in which any one of the
enumerated wire fields — operate, operationMode, fanSpeed, airSwingLR,
airSwingUD, ecoMode or nanoe — carries a value outside its closed
enumeration fails with a DecodeError instead of producing a default or
fallback device state. -/
theorem C7_decode_bad_enum_field (parameters : WireDict) (key : String) (w : WireVal)
    (hkey : key ∈ enumWireKeys)
    (h1 : dictGet parameters key = some w)
    (h2 : enumMemberAt key w = false) :
    ∃ e : DecodeError, _read_parameters parameters = .error e := by
  rw [_read_parameters_decomp]
  simp only [enumWireKeys, List.mem_cons, List.not_mem_nil, or_false] at hkey
  rcases hkey with h | h | h | h | h | h | h <;> subst h
  · refine rpFromOperate_bad parameters w h1 ?_ (rpTelemetry parameters)
    rcases hc : enumOfWire Constants.Power.ofValue w with _ | a
    · rfl
    · simp [enumMemberAt, hc] at h2
  · refine rpFromOperate_prop parameters
      (rpFromOperationMode_bad parameters w h1 ?_) (rpTelemetry parameters)
    rcases hc : enumOfWire Constants.OperationMode.ofValue w with _ | a
    · rfl
    · simp [enumMemberAt, hc] at h2
  · refine rpFromOperate_prop parameters (rpFromOperationMode_prop parameters
      (rpFromFanSpeed_bad parameters w h1 ?_)) (rpTelemetry parameters)
    rcases hc : enumOfWire Constants.FanSpeed.ofValue w with _ | a
    · rfl
    · simp [enumMemberAt, hc] at h2
  · refine rpFromOperate_prop parameters (rpFromOperationMode_prop parameters
      (rpFromFanSpeed_prop parameters
        (rpFromLR_bad parameters w h1 ?_))) (rpTelemetry parameters)
    rcases hc : enumOfWire Constants.AirSwingLR.ofValue w with _ | a
    · rfl
    · simp [enumMemberAt, hc] at h2
  · refine rpFromOperate_prop parameters (rpFromOperationMode_prop parameters
      (rpFromFanSpeed_prop parameters (rpFromLR_prop parameters
        (rpFromUD_bad parameters w h1 ?_)))) (rpTelemetry parameters)
    rcases hc : enumOfWire Constants.AirSwingUD.ofValue w with _ | a
    · rfl
    · simp [enumMemberAt, hc] at h2
  · refine rpFromOperate_prop parameters (rpFromOperationMode_prop parameters
      (rpFromFanSpeed_prop parameters (rpFromLR_prop parameters (rpFromUD_prop parameters
        (rpFromEco_bad parameters w h1 ?_))))) (rpTelemetry parameters)
    rcases hc : enumOfWire Constants.EcoMode.ofValue w with _ | a
    · rfl
    · simp [enumMemberAt, hc] at h2
  · refine rpFromOperate_prop parameters (rpFromOperationMode_prop parameters
      (rpFromFanSpeed_prop parameters (rpFromLR_prop parameters (rpFromUD_prop parameters
        (rpFromEco_prop parameters
          (rpFromNanoe_bad parameters w h1 ?_)))))) (rpTelemetry parameters)
    rcases hc : enumOfWire Constants.NanoeMode.ofValue w with _ | a
    · rfl
    · simp [enumMemberAt, hc] at h2

/-- Witness for C7 at a concrete wire object whose only flaw is the
out-of-enumeration fanSpeed code 99, with operationMode absent. -/
theorem C7_decode_bad_enum_field_witness :
    ∃ e : DecodeError,
      _read_parameters [("fanSpeed", WireVal.int 99)] = .error e :=
  C7_decode_bad_enum_field [("fanSpeed", WireVal.int 99)] "fanSpeed" (WireVal.int 99)
    (by decide) (by decide) (by decide)

/-- C10: for a known device id with a valid history mode, the result of
history carries under its id key the fixed builtin value, independent of
the requested device id, while get_device carries its id argument. -/
theorem C10_history_id_is_builtin (sess : Session) (statusOracle : String → WireDict)
    (historyOracle : Int → String → String → WireDict)
    (deviceId mode date tz g : String) (dm : Constants.dataMode)
    (histState devState : DeviceState)
    (h1 : lookupStr sess._deviceIndexer deviceId = some g) (h2 : g ≠ "")
    (h3 : Constants.dataMode.ofName mode = some dm)
    (h4 : _read_parameters (historyOracle dm.value date tz) = .ok histState)
    (h5 : _read_parameters (statusOracle g) = .ok devState) :
    (∃ r : DeviceResult,
      history sess historyOracle deviceId mode date tz =
        (.ok (some r), [.history g dm.value date tz]) ∧ r.id = ResultId.builtinId) ∧
    (∃ r : DeviceResult,
      get_device sess statusOracle deviceId = (.ok (some r), [.status g]) ∧
        r.id = ResultId.strId deviceId) := by
  constructor
  · refine ⟨{ id := .builtinId, parameters := histState }, ?_, rfl⟩
    simp [history, h1, h2, h3, h4, pyTruthy]
  · refine ⟨{ id := .strId deviceId, parameters := devState }, ?_, rfl⟩
    simp [get_device, h1, h2, h5, pyTruthy]

/-- Witness for C10 at a concrete one-device session with empty wire
responses. -/
theorem C10_history_id_is_builtin_witness :
    (∃ r : DeviceResult,
      history ⟨[("d1", "g1")]⟩ (fun _ _ _ => []) "d1" "Day" "20190807" "+01:00" =
        (.ok (some r), [.history "g1" Constants.dataMode.Day.value "20190807" "+01:00"]) ∧
        r.id = ResultId.builtinId) ∧
    (∃ r : DeviceResult,
      get_device ⟨[("d1", "g1")]⟩ (fun _ => []) "d1" = (.ok (some r), [.status "g1"]) ∧
        r.id = ResultId.strId "d1") :=
  C10_history_id_is_builtin ⟨[("d1", "g1")]⟩ (fun _ => []) (fun _ _ _ => [])
    "d1" "Day" "20190807" "+01:00" "g1" Constants.dataMode.Day {} {}
    (by decide) (by decide) (by decide) rfl rfl

/-- Computation of the fanAuto accumulator updates on the concrete bit
patterns the swing routine can produce. -/
theorem pyAuto_bits :
    pyOr 0 1 = 1 ∧ pyOr 0 2 = 2 ∧ pyOr 1 2 = 3 ∧ pyOr 2 1 = 3 ∧ pyOr 3 1 = 3 ∧ pyOr 3 2 = 3 ∧
    pyOr 1 1 = 1 ∧ pyOr 2 2 = 2 ∧
    pyAnd 0 (pyNot 1) = 0 ∧ pyAnd 1 (pyNot 1) = 0 ∧ pyAnd 2 (pyNot 1) = 2 ∧
    pyAnd 3 (pyNot 1) = 2 ∧
    pyAnd 0 (pyNot 2) = 0 ∧ pyAnd 1 (pyNot 2) = 1 ∧ pyAnd 2 (pyNot 2) = 0 ∧
    pyAnd 3 (pyNot 2) = 1 :=
  ⟨rfl, rfl, rfl, rfl, rfl, rfl, rfl, rfl, rfl, rfl, rfl, rfl, rfl, rfl, rfl, rfl⟩

/-- Resolution of a known logical id in get_device with a decodable
status body: the decoded state is returned and one status request is
issued. -/
theorem get_device_known (sess : Session) (statusOracle : String → WireDict) (id g : String)
    (st : DeviceState) (h1 : lookupStr sess._deviceIndexer id = some g) (h2 : g ≠ "")
    (h3 : _read_parameters (statusOracle g) = .ok st) :
    get_device sess statusOracle id =
      (.ok (some { id := .strId id, parameters := st }), [.status g]) := by
  simp [get_device, h1, h2, h3, pyTruthy]

/-- C1: with current state horizontal Auto and vertical Left, requesting
only vertical Right produces a control parameter set with no airSwingLR
entry, airSwingUD set to the wire code of Right, and fanAutoMode set to
the horizontal-only auto mode: the untouched horizontal Auto state is
preserved as bit 0 while the vertical bit is cleared. -/
theorem C1_vertical_change_keeps_horizontal_auto (sess : Session)
    (statusOracle : String → WireDict) (id g : String) (st : DeviceState)
    (h1 : lookupStr sess._deviceIndexer id = some g) (h2 : g ≠ "")
    (h3 : _read_parameters (statusOracle g) = .ok st)
    (h4 : st.airSwingHorizontal = some Constants.AirSwingLR.Auto)
    (h5 : st.airSwingVertical = some Constants.AirSwingUD.Left) :
    ∃ P : CtrlParams,
      set_device sess statusOracle id
          [("airSwingVertical", PyValue.airSwingUD Constants.AirSwingUD.Right)] =
        (.ok true, [.status g, .control g P]) ∧
      P.airSwingLR = none ∧ P.airSwingUD = some Constants.AirSwingUD.Right.value ∧
      P.fanAutoMode = some Constants.AirSwingAutoMode.AirSwingLR.value := by
  refine ⟨{ airSwingUD := some Constants.AirSwingUD.Right.value,
            fanAutoMode := some Constants.AirSwingAutoMode.AirSwingLR.value },
    ?_, rfl, rfl, rfl⟩
  unfold set_device
  rw [show collectKwargs [("airSwingVertical", PyValue.airSwingUD Constants.AirSwingUD.Right)] =
    (({} : CtrlParams), none, some Constants.AirSwingUD.Right) from rfl]
  rw [get_device_known sess statusOracle id g st h1 h2 h3]
  simp [h1, h2, h4, h5, pyTruthy, pyAuto_bits,
    Constants.AirSwingLR.value, Constants.AirSwingUD.value, Constants.AirSwingAutoMode.value]

/-- Witness for C1 at a concrete one-device session whose status body
decodes to horizontal Auto (through fanAutoMode) and vertical Left. -/
theorem C1_vertical_change_keeps_horizontal_auto_witness :
    ∃ P : CtrlParams,
      set_device ⟨[("d", "g")]⟩
          (fun _ => [("airSwingUD", WireVal.int 2), ("fanAutoMode", WireVal.int 2)]) "d"
          [("airSwingVertical", PyValue.airSwingUD Constants.AirSwingUD.Right)] =
        (.ok true, [.status "g", .control "g" P]) ∧
      P.airSwingLR = none ∧ P.airSwingUD = some Constants.AirSwingUD.Right.value ∧
      P.fanAutoMode = some Constants.AirSwingAutoMode.AirSwingLR.value :=
  C1_vertical_change_keeps_horizontal_auto ⟨[("d", "g")]⟩
    (fun _ => [("airSwingUD", WireVal.int 2), ("fanAutoMode", WireVal.int 2)]) "d" "g"
    { airSwingHorizontal := some Constants.AirSwingLR.Auto,
      airSwingVertical := some Constants.AirSwingUD.Left }
    (by decide) (by decide) rfl rfl rfl

/-- C2: with current state horizontal Left and vertical Up, requesting
only horizontal Auto produces a control parameter set in which both
airSwingUD and airSwingLR are absent (the untouched non-auto vertical
axis is not re-sent and auto replaces the discrete horizontal entry) and
fanAutoMode is the horizontal-only auto mode. -/
theorem C2_horizontal_auto_only (sess : Session)
    (statusOracle : String → WireDict) (id g : String) (st : DeviceState)
    (h1 : lookupStr sess._deviceIndexer id = some g) (h2 : g ≠ "")
    (h3 : _read_parameters (statusOracle g) = .ok st)
    (h4 : st.airSwingHorizontal = some Constants.AirSwingLR.Left)
    (h5 : st.airSwingVertical = some Constants.AirSwingUD.Up) :
    ∃ P : CtrlParams,
      set_device sess statusOracle id
          [("airSwingHorizontal", PyValue.airSwingLR Constants.AirSwingLR.Auto)] =
        (.ok true, [.status g, .control g P]) ∧
      P.airSwingUD = none ∧ P.airSwingLR = none ∧
      P.fanAutoMode = some Constants.AirSwingAutoMode.AirSwingLR.value := by
  refine ⟨{ fanAutoMode := some Constants.AirSwingAutoMode.AirSwingLR.value },
    ?_, rfl, rfl, rfl⟩
  unfold set_device
  rw [show collectKwargs [("airSwingHorizontal", PyValue.airSwingLR Constants.AirSwingLR.Auto)] =
    (({} : CtrlParams), some Constants.AirSwingLR.Auto, none) from rfl]
  rw [get_device_known sess statusOracle id g st h1 h2 h3]
  simp [h1, h2, h4, h5, pyTruthy, pyAuto_bits,
    Constants.AirSwingLR.value, Constants.AirSwingUD.value, Constants.AirSwingAutoMode.value]

/-- Witness for C2 at a concrete one-device session whose status body
decodes to horizontal Left and vertical Up. -/
theorem C2_horizontal_auto_only_witness :
    ∃ P : CtrlParams,
      set_device ⟨[("d", "g")]⟩
          (fun _ => [("airSwingLR", WireVal.int 1), ("airSwingUD", WireVal.int 0)]) "d"
          [("airSwingHorizontal", PyValue.airSwingLR Constants.AirSwingLR.Auto)] =
        (.ok true, [.status "g", .control "g" P]) ∧
      P.airSwingUD = none ∧ P.airSwingLR = none ∧
      P.fanAutoMode = some Constants.AirSwingAutoMode.AirSwingLR.value :=
  C2_horizontal_auto_only ⟨[("d", "g")]⟩
    (fun _ => [("airSwingLR", WireVal.int 1), ("airSwingUD", WireVal.int 0)]) "d" "g"
    { airSwingHorizontal := some Constants.AirSwingLR.Left,
      airSwingVertical := some Constants.AirSwingUD.Up }
    (by decide) (by decide) rfl rfl rfl

/-- A keyword argument outside the recognized key and type combinations
leaves the wire parameter accumulator and both swing slots unchanged. -/
theorem applyKwarg_ignored
    (acc : CtrlParams × Option Constants.AirSwingLR × Option Constants.AirSwingUD)
    (kv : String × PyValue) (h : recognizedKw kv = false) :
    applyKwarg acc kv = acc := by
  obtain ⟨k, v⟩ := kv
  simp only [recognizedKw, Bool.or_eq_false_iff, Bool.and_eq_false_iff, beq_eq_false_iff_ne,
    ne_eq] at h
  cases v <;>
    simp_all [applyKwarg, PyValue.isPower, PyValue.isMode, PyValue.isFanSpeed,
      PyValue.isAirSwingLR, PyValue.isAirSwingUD, PyValue.isEco, PyValue.isNanoe]

/-- Folding the keyword loop over a change set of only ignored entries
leaves any accumulator unchanged. -/
theorem foldl_applyKwarg_ignored (kwargs : List (String × PyValue))
    (acc : CtrlParams × Option Constants.AirSwingLR × Option Constants.AirSwingUD)
    (h : ∀ kv ∈ kwargs, recognizedKw kv = false) :
    kwargs.foldl applyKwarg acc = acc := by
  induction kwargs generalizing acc with
  | nil => rfl
  | cons a t ih =>
    rw [List.foldl_cons, applyKwarg_ignored acc a (h a (by simp))]
    exact ih acc (fun kv hm => h kv (by simp [hm]))

/-- C9: for a known device id, a change set made only of entries whose
key is unrecognized or whose value is not an instance of the expected
enumeration type is silently ignored: every entry is omitted from the
wire parameter set, no error is raised, the control request is still
posted (with an empty parameter set), and set_device returns true. -/
theorem C9_ignored_kwargs_still_posts (sess : Session) (statusOracle : String → WireDict)
    (id g : String) (kwargs : List (String × PyValue))
    (h1 : lookupStr sess._deviceIndexer id = some g) (h2 : g ≠ "")
    (hk : ∀ kv ∈ kwargs, recognizedKw kv = false) :
    set_device sess statusOracle id kwargs = (.ok true, [.control g ({} : CtrlParams)]) := by
  unfold set_device
  rw [show collectKwargs kwargs = (({} : CtrlParams), none, none) from
    foldl_applyKwarg_ignored kwargs _ hk]
  simp [h1, h2, pyTruthy]

/-- Witness for C9 at a concrete session, with power given as a string
and an entirely unknown key. -/
theorem C9_ignored_kwargs_still_posts_witness :
    set_device ⟨[("d", "g")]⟩ (fun _ => []) "d"
        [("power", PyValue.str "On"), ("bogus", PyValue.num 3)] =
      (.ok true, [.control "g" ({} : CtrlParams)]) :=
  C9_ignored_kwargs_still_posts ⟨[("d", "g")]⟩ (fun _ => []) "d" "g"
    [("power", PyValue.str "On"), ("bogus", PyValue.num 3)]
    (by decide) (by decide) (by decide)

/-- Wire-code round trip for Power. -/
theorem Power_ofValue_value (v : Constants.Power) :
    Constants.Power.ofValue v.value = some v := by cases v <;> rfl

/-- Wire-code round trip for OperationMode. -/
theorem OperationMode_ofValue_value (v : Constants.OperationMode) :
    Constants.OperationMode.ofValue v.value = some v := by cases v <;> rfl

/-- Wire-code round trip for FanSpeed. -/
theorem FanSpeed_ofValue_value (v : Constants.FanSpeed) :
    Constants.FanSpeed.ofValue v.value = some v := by cases v <;> rfl

/-- Wire-code round trip for EcoMode. -/
theorem EcoMode_ofValue_value (v : Constants.EcoMode) :
    Constants.EcoMode.ofValue v.value = some v := by cases v <;> rfl

/-- Wire-code round trip for NanoeMode. -/
theorem NanoeMode_ofValue_value (v : Constants.NanoeMode) :
    Constants.NanoeMode.ofValue v.value = some v := by cases v <;> rfl

/-- Wire-code round trip for AirSwingLR. -/
theorem AirSwingLR_ofValue_value (v : Constants.AirSwingLR) :
    Constants.AirSwingLR.ofValue v.value = some v := by cases v <;> rfl

/-- Wire-code round trip for AirSwingUD. -/
theorem AirSwingUD_ofValue_value (v : Constants.AirSwingUD) :
    Constants.AirSwingUD.ofValue v.value = some v := by cases v <;> rfl

/-- Auto is the only horizontal swing member with wire code -1. -/
theorem AirSwingLR_value_eq_neg_one_iff (v : Constants.AirSwingLR) :
    v.value = -1 ↔ v = Constants.AirSwingLR.Auto := by
  cases v <;> simp [Constants.AirSwingLR.value]

/-- Auto is the only vertical swing member with wire code -1. -/
theorem AirSwingUD_value_eq_neg_one_iff (v : Constants.AirSwingUD) :
    v.value = -1 ↔ v = Constants.AirSwingUD.Auto := by
  cases v <;> simp [Constants.AirSwingUD.value]

/-- C8: a change set whose enumerated fields all carry discrete
(non-auto) values — power, mode, fanSpeed, eco, an available nanoe, and
discrete horizontal and vertical swing positions — encodes to a wire
parameter set that decodes back to exactly those values for each field. -/
theorem C8_discrete_roundtrip (sess : Session) (statusOracle : String → WireDict)
    (id g : String) (st : DeviceState)
    (p : Constants.Power) (m : Constants.OperationMode) (f : Constants.FanSpeed)
    (e : Constants.EcoMode) (n : Constants.NanoeMode)
    (x : Constants.AirSwingLR) (y : Constants.AirSwingUD)
    (cx : Constants.AirSwingLR) (cy : Constants.AirSwingUD)
    (h1 : lookupStr sess._deviceIndexer id = some g) (h2 : g ≠ "")
    (h3 : _read_parameters (statusOracle g) = .ok st)
    (h4 : st.airSwingHorizontal = some cx) (h5 : st.airSwingVertical = some cy)
    (hn : n ≠ Constants.NanoeMode.Unavailable)
    (hx : x ≠ Constants.AirSwingLR.Auto) (hy : y ≠ Constants.AirSwingUD.Auto) :
    ∃ (P : CtrlParams) (st2 : DeviceState),
      set_device sess statusOracle id
          [("power", PyValue.power p), ("mode", PyValue.mode m),
           ("fanSpeed", PyValue.fanSpeed f), ("eco", PyValue.eco e),
           ("nanoe", PyValue.nanoe n), ("airSwingHorizontal", PyValue.airSwingLR x),
           ("airSwingVertical", PyValue.airSwingUD y)] =
        (.ok true, [.status g, .control g P]) ∧
      _read_parameters P.toWireDict = .ok st2 ∧
      st2.power = some p ∧ st2.mode = some m ∧ st2.fanSpeed = some f ∧
      st2.eco = some e ∧ st2.nanoe = some n ∧
      st2.airSwingHorizontal = some x ∧ st2.airSwingVertical = some y := by
  have hx2 : ¬ x.value = -1 := fun hc => hx ((AirSwingLR_value_eq_neg_one_iff x).1 hc)
  have hy2 : ¬ y.value = -1 := fun hc => hy ((AirSwingUD_value_eq_neg_one_iff y).1 hc)
  refine ⟨{ operate := some p.value, operationMode := some m.value, fanSpeed := some f.value,
            ecoMode := some e.value, nanoe := some n.value, airSwingLR := some x.value,
            airSwingUD := some y.value,
            fanAutoMode := some Constants.AirSwingAutoMode.Disabled.value },
    { power := some p, mode := some m, fanSpeed := some f, airSwingHorizontal := some x,
      airSwingVertical := some y, eco := some e, nanoe := some n },
    ?_, ?_, rfl, rfl, rfl, rfl, rfl, rfl, rfl⟩
  · have hcol : collectKwargs
        [("power", PyValue.power p), ("mode", PyValue.mode m),
         ("fanSpeed", PyValue.fanSpeed f), ("eco", PyValue.eco e),
         ("nanoe", PyValue.nanoe n), ("airSwingHorizontal", PyValue.airSwingLR x),
         ("airSwingVertical", PyValue.airSwingUD y)] =
        ({ operate := some p.value, operationMode := some m.value, fanSpeed := some f.value,
           ecoMode := some e.value, nanoe := some n.value }, some x, some y) := by
      simp [collectKwargs, applyKwarg, hn]
    unfold set_device
    rw [hcol]
    rw [get_device_known sess statusOracle id g st h1 h2 h3]
    by_cases hcx : cx.value = -1 <;> by_cases hcy : cy.value = -1 <;>
      simp [h1, h2, h4, h5, hcx, hcy, hx2, hy2, pyTruthy, pyAuto_bits,
        Constants.AirSwingAutoMode.value]
  · simp [CtrlParams.toWireDict, optEntryI, optEntryP, _read_parameters, readRaw, readEnum,
      enumOfWire, dictGet, applyFanAutoMode, Power_ofValue_value, OperationMode_ofValue_value,
      FanSpeed_ofValue_value, EcoMode_ofValue_value, NanoeMode_ofValue_value,
      AirSwingLR_ofValue_value, AirSwingUD_ofValue_value, Constants.AirSwingAutoMode.value,
      List.find?]

/-- Witness for C8 at a concrete one-device session with a fully
discrete change set over a current state of horizontal Left and vertical
Up. -/
theorem C8_discrete_roundtrip_witness :
    ∃ (P : CtrlParams) (st2 : DeviceState),
      set_device ⟨[("d", "g")]⟩
          (fun _ => [("airSwingLR", WireVal.int 1), ("airSwingUD", WireVal.int 0)]) "d"
          [("power", PyValue.power Constants.Power.On),
           ("mode", PyValue.mode Constants.OperationMode.Cool),
           ("fanSpeed", PyValue.fanSpeed Constants.FanSpeed.High),
           ("eco", PyValue.eco Constants.EcoMode.Quiet),
           ("nanoe", PyValue.nanoe Constants.NanoeMode.On),
           ("airSwingHorizontal", PyValue.airSwingLR Constants.AirSwingLR.Left),
           ("airSwingVertical", PyValue.airSwingUD Constants.AirSwingUD.Down)] =
        (.ok true, [.status "g", .control "g" P]) ∧
      _read_parameters P.toWireDict = .ok st2 ∧
      st2.power = some Constants.Power.On ∧
      st2.mode = some Constants.OperationMode.Cool ∧
      st2.fanSpeed = some Constants.FanSpeed.High ∧
      st2.eco = some Constants.EcoMode.Quiet ∧
      st2.nanoe = some Constants.NanoeMode.On ∧
      st2.airSwingHorizontal = some Constants.AirSwingLR.Left ∧
      st2.airSwingVertical = some Constants.AirSwingUD.Down :=
  C8_discrete_roundtrip ⟨[("d", "g")]⟩
    (fun _ => [("airSwingLR", WireVal.int 1), ("airSwingUD", WireVal.int 0)]) "d" "g"
    { airSwingHorizontal := some Constants.AirSwingLR.Left,
      airSwingVertical := some Constants.AirSwingUD.Up }
    Constants.Power.On Constants.OperationMode.Cool Constants.FanSpeed.High
    Constants.EcoMode.Quiet Constants.NanoeMode.On
    Constants.AirSwingLR.Left Constants.AirSwingUD.Down
    Constants.AirSwingLR.Left Constants.AirSwingUD.Up
    (by decide) (by decide) rfl rfl rfl (by decide) (by decide) (by decide)

end PCC
